import Mathlib

/-!
# Verification of `wakeful/bamboo_exporter`

Shallow embedding of `bamboo_exporter.go` and proofs about its collection
cycle.  The embedding follows the Go source line by line:

* `BambooAgent`, `BambooQueue`, `BambooVersion` mirror the JSON-decoded
  structs of the source (field names kept, `int64` modelled as `Int`,
  `float64` gauge values are integral in every emission site and are
  modelled as `Int`).
* The three upstream calls (`GetVersion`, `GetAgents`, `GetQueue`) are
  effectful HTTP+decode operations; `Collect` receives their outcomes as
  explicit `UpstreamResult` arguments.  A failed call yields the Go zero
  value of its output type (nil slice / zero struct), which is what the
  source's accessors return on their error paths.
* `CollectFrom` is the state-passing embedding of `Exporter.Collect`:
  the five mutable prometheus gauges of the `Exporter` become an explicit
  `Gauges` record threaded through the function, and each `ch <- ...`
  send becomes an element appended to the output transcript
  (`List Metric`).  Note that in the source the variable `err` is
  reassigned by each of the three calls, so the final `if err != nil`
  guarding `e.up.Set(0)` observes only the error of `e.GetQueue()`.
* `Char.toLower` (ASCII) stands in for Go's `strings.ToLower`; the two
  agree on the ASCII range, which covers every literal the source
  compares against ("running", "remote") and all examples in the claims.
* For the decoding claims, `Json` is an inductive JSON value and
  `decodeBambooQueue` models `encoding/json.Unmarshal` into the
  `BambooQueue` struct: unknown object keys are ignored, absent fields
  keep the current (zero) value, JSON `null` is a no-op, a type mismatch
  records an error but decoding continues (Go's `d.saveError` behaviour;
  only the presence of an error matters here, so a `Bool` flag is
  carried).
-/

namespace BambooExporter

/-- JSON values (integral numbers suffice: the only numeric field decoded
into `BambooQueue` is the `int64` field `size`, and a fractional number
is a type mismatch for `int64` just like a string is). -/
inductive Json where
  | null
  | bool (b : Bool)
  | num (n : Int)
  | str (s : String)
  | arr (elems : List Json)
  | obj (fields : List (String × Json))

/-- Is this JSON value a number? -/
def Json.isNum : Json → Bool
  | .num _ => true
  | _ => false

/-- Is this JSON value `null`? -/
def Json.isNull : Json → Bool
  | .null => true
  | _ => false

/-- Go struct `BambooAgent` (json tags: `id`, `name`, `type`, `active`,
`enabled`, `busy`).  `IsRemote` is the raw classification *string*. -/
structure BambooAgent where
  Id : Int
  HostName : String
  IsRemote : String
  IsActive : Bool
  IsEnabled : Bool
  IsWorking : Bool

/-- Go type `BambooAgents = []BambooAgent`; the zero value is the nil
(empty) slice. -/
abbrev BambooAgents := List BambooAgent

/-- The anonymous struct nested in `BambooQueue` (json tags `size`,
`start-index`, `max-result`). -/
structure BambooQueuedBuilds where
  Size : Int
  StartIndex : Int
  MaxResult : Int
deriving DecidableEq

instance : Inhabited BambooQueuedBuilds := ⟨⟨0, 0, 0⟩⟩

/-- Go struct `BambooQueue` (json tag `queuedBuilds`). -/
structure BambooQueue where
  QueuedBuilds : BambooQueuedBuilds
deriving DecidableEq

instance : Inhabited BambooQueue := ⟨⟨default⟩⟩

/-- Go struct `BambooVersion` (json tags `buildNumber`, `state`,
`version`; all three fields are strings in the source). -/
structure BambooVersion where
  Build : String
  State : String
  Version : String

instance : Inhabited BambooVersion := ⟨⟨"", "", ""⟩⟩

/-- Outcome of one upstream accessor call (`GetVersion` / `GetAgents` /
`GetQueue`) as observed by `Collect`: either a decoded value or a failure
(transport error, non-200 status, or decode error).  On failure the Go
accessors return the zero value of the output type together with the
error. -/
inductive UpstreamResult (α : Type) where
  | ok (val : α)
  | fail

/-- The value component the Go caller receives: the decoded value on
success, the Go zero value on failure. -/
def UpstreamResult.value {α : Type} [Inhabited α] : UpstreamResult α → α
  | .ok v => v
  | .fail => default

/-- Whether the call returned a non-nil error. -/
def UpstreamResult.failed {α : Type} : UpstreamResult α → Bool
  | .ok _ => false
  | .fail => true

/-- Embedding of Go `strings.ToLower` (ASCII fragment; agrees with Go on
every ASCII string). -/
def toLowerGo (s : String) : String := String.mk (s.data.map Char.toLower)

/-- Embedding of Go `strings.Replace(s, " ", "_", -1)`: the pattern is a
single character, so the replacement is character-wise. -/
def replaceSpaceGo (s : String) : String :=
  String.mk (s.data.map fun c => if c = ' ' then '_' else c)

/-- The host-name label derivation of `Collect`:
`strings.Replace(strings.ToLower(agent.HostName), " ", "_", -1)`. -/
def hostNameLabel (s : String) : String := replaceSpaceGo (toLowerGo s)

/-- One metric sample sent on the collection channel: either one of the
five fixed gauges (identified by its full prometheus name) or one
`bamboo_agent_busy` row with its five label values. -/
inductive Metric where
  | gauge (name : String) (value : Int)
  | agentBusy (hostName isRemote isEnabled isActive id : String) (value : Int)
deriving DecidableEq

/-- The `bamboo_agent_busy` row built in the body of the agent loop of
`Exporter.Collect` (labels `hostName, isRemote, isEnabled, isActive, id`;
value `1` if busy else `0`; the id label is `strconv.FormatInt(Id, 10)`). -/
def agentRow (agent : BambooAgent) : Metric :=
  Metric.agentBusy
    (hostNameLabel agent.HostName)
    (if toLowerGo agent.IsRemote = "remote" then "yes" else "no")
    (if agent.IsEnabled then "yes" else "no")
    (if agent.IsActive then "yes" else "no")
    (toString agent.Id)
    (if agent.IsWorking then 1 else 0)

/-- The five mutable prometheus gauge registers held by the `Exporter`
struct.  Prometheus gauges start at 0. -/
structure Gauges where
  up : Int
  isRunning : Int
  agentCountTotal : Int
  agentCountBusy : Int
  buildQueue : Int
deriving DecidableEq

instance : Inhabited Gauges := ⟨⟨0, 0, 0, 0, 0⟩⟩

/-- State-passing embedding of `Exporter.Collect` (lines 145–222 of
`bamboo_exporter.go`).  `g0` is the gauge state left over from any
previous invocation; each `Set` is a record update, each `ch <- m` an
append to the transcript.  The `err` variable of the source is
reassigned by each upstream call, so the final `if err != nil`
(line 216) sees only the `GetQueue` error. -/
def CollectFrom (g0 : Gauges) (version : UpstreamResult BambooVersion)
    (agents : UpstreamResult BambooAgents) (queue : UpstreamResult BambooQueue) :
    Gauges × List Metric :=
  -- e.up.Set(1)
  let g1 := { g0 with up := 1 }
  -- e.isRunning.Set(0); version, err := e.GetVersion()
  -- if strings.ToLower(version.State) == "running" { e.isRunning.Set(1) }
  let g2 := { g1 with isRunning := 0 }
  let g3 := if toLowerGo (version.value).State = "running" then
    { g2 with isRunning := 1 } else g2
  -- ch <- e.isRunning
  let out1 := [Metric.gauge "bamboo_running" g3.isRunning]
  -- e.agentCountTotal.Set(0); agentList, err := e.GetAgents()
  -- e.agentCountTotal.Set(float64(len(agentList))); ch <- e.agentCountTotal
  let g4 := { g3 with agentCountTotal := 0 }
  let agentList := agents.value
  let g5 := { g4 with agentCountTotal := (agentList.length : Int) }
  let out2 := out1 ++ [Metric.gauge "bamboo_agent_count_total" g5.agentCountTotal]
  -- var busyAgents float64 = 0; e.agentCountBusy.Set(busyAgents)
  let g6 := { g5 with agentCountBusy := 0 }
  -- for _, agent := range agentList { ...; ch <- MustNewConstMetric(...) }
  let loopRes := agentList.foldl
    (fun acc agent =>
      (acc.1 ++ [agentRow agent], acc.2 + if agent.IsWorking then (1 : Int) else 0))
    (([] : List Metric), (0 : Int))
  let out3 := out2 ++ loopRes.1
  -- e.agentCountBusy.Set(busyAgents); ch <- e.agentCountBusy
  let g7 := { g6 with agentCountBusy := loopRes.2 }
  let out4 := out3 ++ [Metric.gauge "bamboo_agent_count_busy" g7.agentCountBusy]
  -- e.buildQueue.Set(0); buildQueue, err := e.GetQueue()
  -- e.buildQueue.Set(float64(buildQueue.QueuedBuilds.Size)); ch <- e.buildQueue
  let g8 := { g7 with buildQueue := 0 }
  let g9 := { g8 with buildQueue := (queue.value).QueuedBuilds.Size }
  let out5 := out4 ++ [Metric.gauge "bamboo_queue_count" g9.buildQueue]
  -- if err != nil { e.up.Set(0) }   (err is the GetQueue error here)
  let g10 := if queue.failed then { g9 with up := 0 } else g9
  -- ch <- e.up
  let out6 := out5 ++ [Metric.gauge "bamboo_up" g10.up]
  (g10, out6)

/-- The transcript of one scrape cycle. -/
def Collect (version : UpstreamResult BambooVersion)
    (agents : UpstreamResult BambooAgents) (queue : UpstreamResult BambooQueue) :
    List Metric :=
  (CollectFrom default version agents queue).2

/-! ## Metric-transcript observation helpers -/

/-- Does this sample carry the fixed gauge named `n`? -/
def Metric.isGaugeNamed (m : Metric) (n : String) : Bool :=
  match m with
  | .gauge name _ => name = n
  | .agentBusy _ _ _ _ _ _ => false

/-- The numeric sample value. -/
def Metric.value : Metric → Int
  | .gauge _ v => v
  | .agentBusy _ _ _ _ _ v => v

/-- Is this sample a `bamboo_agent_busy` row? -/
def Metric.isAgentRow : Metric → Bool
  | .gauge _ _ => false
  | .agentBusy _ _ _ _ _ _ => true

/-- The `hostName` label of an agent row (`""` for fixed gauges). -/
def Metric.rowHostName : Metric → String
  | .gauge _ _ => ""
  | .agentBusy h _ _ _ _ _ => h

/-- The `isRemote` label of an agent row (`""` for fixed gauges). -/
def Metric.rowIsRemote : Metric → String
  | .gauge _ _ => ""
  | .agentBusy _ r _ _ _ _ => r

/-- Value of the first sample of the fixed gauge named `n` in a
transcript (`0` if absent). -/
def gaugeValue (ms : List Metric) (n : String) : Int :=
  match ms.find? (fun m => m.isGaugeNamed n) with
  | some m => m.value
  | none => 0

/-- How many samples of the fixed gauge named `n` a transcript holds. -/
def gaugeCount (ms : List Metric) (n : String) : Nat :=
  (ms.filter (fun m => m.isGaugeNamed n)).length

/-- The `bamboo_agent_busy` rows of a transcript, in emission order. -/
def agentRowsOf (ms : List Metric) : List Metric :=
  ms.filter Metric.isAgentRow

/-! ## Upstream client, decode layer (for the `GetQueue` claims)

`Exporter.Do` fails with a transport error or on a non-200 status; on
success `GetQueue` feeds the body to `json.Unmarshal`. -/

/-- Failures of `Exporter.Do`: network-level error, or non-200 HTTP
status (the error message names the endpoint). -/
inductive FetchError where
  | transport
  | badStatus (endpoint : String)
deriving DecidableEq

/-- Failures of a typed accessor: a `Do` failure, or a JSON decode
error. -/
inductive ScrapeError where
  | fetch (e : FetchError)
  | decode
deriving DecidableEq

/-- `json.Unmarshal` of one JSON value into an `int64` field currently
holding `cur`: `null` is a no-op, a number is stored, anything else is a
type mismatch. -/
def decodeInt64 (cur : Int) : Json → Int × Bool
  | .null => (cur, false)
  | .num n => (n, false)
  | _ => (cur, true)

/-- `json.Unmarshal` of one JSON value into the nested
`QueuedBuilds` struct: `null` is a no-op, an object is decoded field by
field (unknown keys ignored, later duplicates overwrite, a type mismatch
sets the error flag but decoding continues), anything else is a type
mismatch. -/
def decodeQueuedBuilds (cur : BambooQueuedBuilds) : Json → BambooQueuedBuilds × Bool
  | .null => (cur, false)
  | .obj fields => fields.foldl
      (fun acc kv =>
        if kv.1 = "size" then
          let r := decodeInt64 acc.1.Size kv.2
          ({ acc.1 with Size := r.1 }, acc.2 || r.2)
        else if kv.1 = "start-index" then
          let r := decodeInt64 acc.1.StartIndex kv.2
          ({ acc.1 with StartIndex := r.1 }, acc.2 || r.2)
        else if kv.1 = "max-result" then
          let r := decodeInt64 acc.1.MaxResult kv.2
          ({ acc.1 with MaxResult := r.1 }, acc.2 || r.2)
        else acc)
      (cur, false)
  | _ => (cur, true)

/-- `json.Unmarshal(body, &output)` for `var output BambooQueue`:
decode into the zero value; only the key `queuedBuilds` is bound to a
field, all other keys are ignored. -/
def decodeBambooQueue : Json → BambooQueue × Bool
  | .null => (default, false)
  | .obj fields => fields.foldl
      (fun acc kv =>
        if kv.1 = "queuedBuilds" then
          let r := decodeQueuedBuilds acc.1.QueuedBuilds kv.2
          ({ acc.1 with QueuedBuilds := r.1 }, acc.2 || r.2)
        else acc)
      ((default : BambooQueue), false)
  | _ => (default, true)

/-- `Exporter.GetQueue` over the outcome of `Do` (the body already
parsed into a `Json` value; a body that is not well-formed JSON is a
separate syntax-level `DecodeError` not needed by the claims, which
quantify over well-formed object responses). -/
def GetQueue (response : Except FetchError Json) : Except ScrapeError BambooQueue :=
  match response with
  | .error e => .error (.fetch e)
  | .ok body =>
      if (decodeBambooQueue body).2 then .error .decode
      else .ok (decodeBambooQueue body).1


/-! ## Helper lemmas -/

/-- Closed form of the agent loop: the emitted rows are `agentRow` of
each agent in order, and `busyAgents` ends at the number of agents whose
busy flag is set. -/
theorem agentLoop_eq (l : BambooAgents) :
    ∀ (ms : List Metric) (n : Int),
    l.foldl (fun acc agent =>
        (acc.1 ++ [agentRow agent], acc.2 + if agent.IsWorking then (1 : Int) else 0)) (ms, n)
      = (ms ++ l.map agentRow, n + ((l.filter fun ag => ag.IsWorking).length : Int)) := by
  induction l with
  | nil => intro ms n; simp
  | cons a t ih =>
      intro ms n
      simp only [List.foldl_cons, ih, List.map_cons, List.filter_cons]
      cases h : a.IsWorking <;> simp <;> ring

/-- Closed form of the transcript of one cycle, for an arbitrary initial
gauge state: every gauge is `Set` before it is sent, so the leftover
state never shows through. -/
theorem CollectFrom_snd_eq (g : Gauges) (version : UpstreamResult BambooVersion)
    (agents : UpstreamResult BambooAgents) (queue : UpstreamResult BambooQueue) :
    (CollectFrom g version agents queue).2 =
      Metric.gauge "bamboo_running"
          (if toLowerGo (version.value).State = "running" then 1 else 0)
        :: Metric.gauge "bamboo_agent_count_total" ((agents.value).length : Int)
        :: ((agents.value).map agentRow
          ++ [Metric.gauge "bamboo_agent_count_busy"
                (((agents.value).filter fun ag => ag.IsWorking).length : Int),
              Metric.gauge "bamboo_queue_count" (queue.value).QueuedBuilds.Size,
              Metric.gauge "bamboo_up" (if queue.failed then 0 else 1)]) := by
  simp only [CollectFrom, agentLoop_eq]
  by_cases h1 : toLowerGo (version.value).State = "running" <;>
    cases h2 : queue.failed <;> simp [h1, h2]

/-- Closed form of `Collect`. -/
theorem Collect_eq (version : UpstreamResult BambooVersion)
    (agents : UpstreamResult BambooAgents) (queue : UpstreamResult BambooQueue) :
    Collect version agents queue =
      Metric.gauge "bamboo_running"
          (if toLowerGo (version.value).State = "running" then 1 else 0)
        :: Metric.gauge "bamboo_agent_count_total" ((agents.value).length : Int)
        :: ((agents.value).map agentRow
          ++ [Metric.gauge "bamboo_agent_count_busy"
                (((agents.value).filter fun ag => ag.IsWorking).length : Int),
              Metric.gauge "bamboo_queue_count" (queue.value).QueuedBuilds.Size,
              Metric.gauge "bamboo_up" (if queue.failed then 0 else 1)]) :=
  CollectFrom_snd_eq default version agents queue

theorem agentRow_isGaugeNamed (ag : BambooAgent) (n : String) :
    (agentRow ag).isGaugeNamed n = false := rfl

theorem agentRow_isAgentRow (ag : BambooAgent) : (agentRow ag).isAgentRow = true := rfl

theorem find?_gauge_map_agentRow (l : BambooAgents) (n : String) :
    (l.map agentRow).find? (fun m => m.isGaugeNamed n) = none := by
  apply List.find?_eq_none.mpr
  intro m hm
  obtain ⟨ag, _, rfl⟩ := List.mem_map.mp hm
  simp [agentRow_isGaugeNamed]

theorem filter_gauge_map_agentRow (l : BambooAgents) (n : String) :
    (l.map agentRow).filter (fun m => m.isGaugeNamed n) = [] := by
  rw [List.filter_eq_nil_iff]
  intro m hm
  obtain ⟨ag, _, rfl⟩ := List.mem_map.mp hm
  simp [agentRow_isGaugeNamed]

theorem filter_isAgentRow_map_agentRow (l : BambooAgents) :
    (l.map agentRow).filter Metric.isAgentRow = l.map agentRow := by
  rw [List.filter_eq_self]
  intro m hm
  obtain ⟨ag, _, rfl⟩ := List.mem_map.mp hm
  simp [agentRow_isAgentRow]

theorem gaugeValue_Collect_running (v : UpstreamResult BambooVersion)
    (a : UpstreamResult BambooAgents) (q : UpstreamResult BambooQueue) :
    gaugeValue (Collect v a q) "bamboo_running"
      = (if toLowerGo (v.value).State = "running" then 1 else 0) := by
  rw [Collect_eq]
  simp [gaugeValue, List.find?, Metric.isGaugeNamed, Metric.value]

theorem gaugeValue_Collect_total (v : UpstreamResult BambooVersion)
    (a : UpstreamResult BambooAgents) (q : UpstreamResult BambooQueue) :
    gaugeValue (Collect v a q) "bamboo_agent_count_total" = ((a.value).length : Int) := by
  rw [Collect_eq]
  simp [gaugeValue, List.find?, Metric.isGaugeNamed, Metric.value]

theorem gaugeValue_Collect_busy (v : UpstreamResult BambooVersion)
    (a : UpstreamResult BambooAgents) (q : UpstreamResult BambooQueue) :
    gaugeValue (Collect v a q) "bamboo_agent_count_busy"
      = (((a.value).filter fun ag => ag.IsWorking).length : Int) := by
  rw [Collect_eq]
  unfold gaugeValue
  rw [List.find?_cons_of_neg _ (by simp [Metric.isGaugeNamed]),
    List.find?_cons_of_neg _ (by simp [Metric.isGaugeNamed]),
    List.find?_append, find?_gauge_map_agentRow, Option.none_or]
  simp [List.find?, Metric.isGaugeNamed, Metric.value]

theorem gaugeValue_Collect_queue (v : UpstreamResult BambooVersion)
    (a : UpstreamResult BambooAgents) (q : UpstreamResult BambooQueue) :
    gaugeValue (Collect v a q) "bamboo_queue_count" = (q.value).QueuedBuilds.Size := by
  rw [Collect_eq]
  unfold gaugeValue
  rw [List.find?_cons_of_neg _ (by simp [Metric.isGaugeNamed]),
    List.find?_cons_of_neg _ (by simp [Metric.isGaugeNamed]),
    List.find?_append, find?_gauge_map_agentRow, Option.none_or]
  simp [List.find?, Metric.isGaugeNamed, Metric.value]

theorem gaugeValue_Collect_up (v : UpstreamResult BambooVersion)
    (a : UpstreamResult BambooAgents) (q : UpstreamResult BambooQueue) :
    gaugeValue (Collect v a q) "bamboo_up" = (if q.failed then 0 else 1) := by
  rw [Collect_eq]
  unfold gaugeValue
  rw [List.find?_cons_of_neg _ (by simp [Metric.isGaugeNamed]),
    List.find?_cons_of_neg _ (by simp [Metric.isGaugeNamed]),
    List.find?_append, find?_gauge_map_agentRow, Option.none_or]
  simp [List.find?, Metric.isGaugeNamed, Metric.value]

theorem agentRowsOf_Collect (v : UpstreamResult BambooVersion)
    (a : UpstreamResult BambooAgents) (q : UpstreamResult BambooQueue) :
    agentRowsOf (Collect v a q) = (a.value).map agentRow := by
  rw [Collect_eq]
  simp [agentRowsOf, List.filter_append, filter_isAgentRow_map_agentRow,
    List.filter, Metric.isAgentRow]

theorem gaugeCount_Collect (v : UpstreamResult BambooVersion)
    (a : UpstreamResult BambooAgents) (q : UpstreamResult BambooQueue) (n : String)
    (h : n ∈ ["bamboo_up", "bamboo_running", "bamboo_agent_count_total",
      "bamboo_agent_count_busy", "bamboo_queue_count"]) :
    gaugeCount (Collect v a q) n = 1 := by
  rw [Collect_eq]
  fin_cases h <;>
    simp [gaugeCount, List.filter_append, filter_gauge_map_agentRow,
      List.filter, Metric.isGaugeNamed, agentRow]

/-- `Char.ofNat` is faithful on valid code points. -/
theorem toNat_charOfNat_valid {n : Nat} (h : n.isValidChar) : (Char.ofNat n).toNat = n := by
  rw [Char.ofNat, dif_pos h]
  rfl

theorem isUpper_iff_toNat (c : Char) :
    c.isUpper = true ↔ 65 ≤ c.toNat ∧ c.toNat ≤ 90 := by
  simp only [Char.isUpper, Bool.and_eq_true, decide_eq_true_eq, ge_iff_le,
    UInt32.le_def, BitVec.le_def]
  constructor
  · rintro ⟨h1, h2⟩
    exact ⟨h1, h2⟩
  · rintro ⟨h1, h2⟩
    exact ⟨h1, h2⟩

/-- Lowercasing never leaves an ASCII uppercase letter behind. -/
theorem toLower_not_isUpper (c : Char) : (Char.toLower c).isUpper = false := by
  rw [Char.toLower]
  by_cases h : c.toNat ≥ 65 ∧ c.toNat ≤ 90
  · rw [if_pos h]
    have hv : (c.toNat + 32).isValidChar := by
      unfold Nat.isValidChar
      left
      omega
    have ht : (Char.ofNat (c.toNat + 32)).toNat = c.toNat + 32 := toNat_charOfNat_valid hv
    by_contra hb
    rw [Bool.not_eq_false, isUpper_iff_toNat] at hb
    omega
  · rw [if_neg h]
    by_contra hb
    rw [Bool.not_eq_false, isUpper_iff_toNat] at hb
    omega

/-- Lowercasing neither creates nor destroys a space character. -/
theorem toLower_space_iff (c : Char) : Char.toLower c = ' ' ↔ c = ' ' := by
  rw [Char.toLower]
  by_cases h : c.toNat ≥ 65 ∧ c.toNat ≤ 90
  · rw [if_pos h]
    have hv : (c.toNat + 32).isValidChar := by
      unfold Nat.isValidChar
      left
      omega
    have hsp : (' ' : Char).toNat = 32 := rfl
    constructor
    · intro he
      have hts : (Char.ofNat (c.toNat + 32)).toNat = (' ' : Char).toNat := by rw [he]
      rw [toNat_charOfNat_valid hv, hsp] at hts
      omega
    · intro he
      rw [he, hsp] at h
      omega
  · rw [if_neg h]

/-- The derived host-name label has no ASCII uppercase letter and no
space character. -/
theorem hostNameLabel_clean (s : String) :
    ((hostNameLabel s).data.all fun c => !c.isUpper && !(c = ' ')) = true := by
  rw [List.all_eq_true]
  intro c hc
  have hd : (hostNameLabel s).data = s.data.map fun c0 =>
      (if Char.toLower c0 = ' ' then '_' else Char.toLower c0) := by
    simp [hostNameLabel, replaceSpaceGo, toLowerGo]
  rw [hd] at hc
  obtain ⟨c0, _, rfl⟩ := List.mem_map.mp hc
  by_cases h : Char.toLower c0 = ' '
  · rw [if_pos h]
    decide
  · rw [if_neg h]
    simp [toLower_not_isUpper, h]

/-- Once the decode-error flag is set it is never cleared by processing
further object fields. -/
theorem foldl_flag_mono {α β : Type} (f : α × Bool → β → α × Bool)
    (hmono : ∀ acc y, acc.2 = true → (f acc y).2 = true) :
    ∀ (l : List β) (acc : α × Bool), acc.2 = true → (l.foldl f acc).2 = true := by
  intro l
  induction l with
  | nil => intro acc h; exact h
  | cons x t ih => intro acc h; exact ih (f acc x) (hmono acc x h)

/-- A field whose processing always sets the error flag forces the flag
of the whole fold. -/
theorem foldl_flag_of_mem {α β : Type} (f : α × Bool → β → α × Bool)
    (l : List β) (x : β) (hx : x ∈ l)
    (hmono : ∀ acc y, acc.2 = true → (f acc y).2 = true)
    (hbad : ∀ acc, (f acc x).2 = true) :
    ∀ acc : α × Bool, (l.foldl f acc).2 = true := by
  induction l with
  | nil => cases hx
  | cons h t ih =>
      intro acc
      rw [List.foldl_cons]
      rcases List.mem_cons.mp hx with heq | hmem
      · subst heq
        exact foldl_flag_mono f hmono t (f acc x) (hbad acc)
      · exact ih hmem (f acc h)

theorem decodeInt64_bad (cur : Int) (v : Json)
    (hnum : v.isNum = false) (hnull : v.isNull = false) :
    (decodeInt64 cur v).2 = true := by
  cases v <;> simp_all [decodeInt64, Json.isNum, Json.isNull]

theorem decodeQueuedBuilds_bad_size (cur : BambooQueuedBuilds) (inner : List (String × Json))
    (v : Json) (hsz : ("size", v) ∈ inner)
    (hnum : v.isNum = false) (hnull : v.isNull = false) :
    (decodeQueuedBuilds cur (Json.obj inner)).2 = true := by
  unfold decodeQueuedBuilds
  apply foldl_flag_of_mem _ inner ("size", v) hsz
  · intro acc y hacc
    by_cases h1 : y.1 = "size"
    · simp [h1, hacc]
    · by_cases h2 : y.1 = "start-index"
      · simp [h1, h2, hacc]
      · by_cases h3 : y.1 = "max-result"
        · simp [h1, h2, h3, hacc]
        · simp [h1, h2, h3, hacc]
  · intro acc
    simp [decodeInt64_bad _ v hnum hnull]

theorem decodeBambooQueue_bad_size (fields inner : List (String × Json)) (v : Json)
    (hqb : ("queuedBuilds", Json.obj inner) ∈ fields)
    (hsz : ("size", v) ∈ inner)
    (hnum : v.isNum = false) (hnull : v.isNull = false) :
    (decodeBambooQueue (Json.obj fields)).2 = true := by
  unfold decodeBambooQueue
  apply foldl_flag_of_mem _ fields ("queuedBuilds", Json.obj inner) hqb
  · intro acc y hacc
    by_cases h1 : y.1 = "queuedBuilds"
    · simp [h1, hacc]
    · simp [h1, hacc]
  · intro acc
    simp [decodeQueuedBuilds_bad_size _ inner v hsz hnum hnull]


/-! ## Claim theorems -/

/-- C1 (code bug witness): the claim says `bamboo_up` is 1 iff all three
upstream calls succeeded, but in the source the `err` variable is
overwritten by each call and only the `GetQueue` error reaches the final
`if err != nil`.  Concretely: with `GetVersion` failing (first conjunct)
or `GetAgents` failing (second conjunct) while `GetQueue` succeeds, the
cycle still emits `bamboo_up = 1`. -/
theorem c1_up_ignores_version_and_agents_failures :
    gaugeValue (Collect UpstreamResult.fail
        (UpstreamResult.ok [⟨1, "a", "remote", true, true, true⟩])
        (UpstreamResult.ok ⟨⟨2, 0, 0⟩⟩))
      "bamboo_up" = 1
  ∧ gaugeValue (Collect
        (UpstreamResult.ok ⟨"8000", "RUNNING", "6.5"⟩)
        UpstreamResult.fail
        (UpstreamResult.ok ⟨⟨2, 0, 0⟩⟩))
      "bamboo_up" = 1 := by
  rw [gaugeValue_Collect_up, gaugeValue_Collect_up]
  exact ⟨rfl, rfl⟩

/-- C2: for a successful `getAgents` call the cycle emits exactly the
`agentRow` of each returned agent, the row value is 1 when the agent is
busy and 0 when it is not, and `bamboo_agent_count_busy` equals the
number of busy agents in the returned list. -/
theorem c2_agent_busy_values_and_count (v : UpstreamResult BambooVersion)
    (q : UpstreamResult BambooQueue) (agents : BambooAgents) :
    agentRowsOf (Collect v (UpstreamResult.ok agents) q) = agents.map agentRow
  ∧ (∀ ag : BambooAgent, (agentRow ag).value = if ag.IsWorking then (1 : Int) else 0)
  ∧ gaugeValue (Collect v (UpstreamResult.ok agents) q) "bamboo_agent_count_busy"
      = ((agents.filter fun ag => ag.IsWorking).length : Int) := by
  refine ⟨agentRowsOf_Collect v (UpstreamResult.ok agents) q, fun ag => rfl, ?_⟩
  exact gaugeValue_Collect_busy v (UpstreamResult.ok agents) q

/-- C3: `bamboo_agent_count_total` equals the number of agents the
`getAgents` call of the cycle returned; when that call fails the cycle
emits `agent_count_total = 0`, `agent_count_busy = 0` and no per-agent
rows. -/
theorem c3_agent_count_total (v : UpstreamResult BambooVersion)
    (q : UpstreamResult BambooQueue) (agents : BambooAgents) :
    gaugeValue (Collect v (UpstreamResult.ok agents) q) "bamboo_agent_count_total"
      = (agents.length : Int)
  ∧ gaugeValue (Collect v UpstreamResult.fail q) "bamboo_agent_count_total" = 0
  ∧ gaugeValue (Collect v UpstreamResult.fail q) "bamboo_agent_count_busy" = 0
  ∧ agentRowsOf (Collect v UpstreamResult.fail q) = [] := by
  refine ⟨gaugeValue_Collect_total v (UpstreamResult.ok agents) q, ?_, ?_, ?_⟩
  · rw [gaugeValue_Collect_total]
    rfl
  · rw [gaugeValue_Collect_busy]
    rfl
  · rw [agentRowsOf_Collect]
    rfl

/-- C4: `bamboo_running` is 1 when `getServerInfo` succeeded and the
reported state equals "running" case-insensitively, and 0 otherwise
(different state, or failed call: the zero-value state "" never compares
equal to "running"); a `getServerInfo` failure does not abort the cycle
(the transcript has the same shape and still ends with the `bamboo_up`
gauge). -/
theorem c4_running_gauge (a : UpstreamResult BambooAgents)
    (q : UpstreamResult BambooQueue) (ver : BambooVersion) :
    gaugeValue (Collect (UpstreamResult.ok ver) a q) "bamboo_running"
      = (if toLowerGo ver.State = "running" then 1 else 0)
  ∧ gaugeValue (Collect UpstreamResult.fail a q) "bamboo_running" = 0
  ∧ (Collect UpstreamResult.fail a q).length = (Collect (UpstreamResult.ok ver) a q).length
  ∧ gaugeCount (Collect UpstreamResult.fail a q) "bamboo_up" = 1 := by
  refine ⟨gaugeValue_Collect_running (UpstreamResult.ok ver) a q, ?_, ?_, ?_⟩
  · rw [gaugeValue_Collect_running]
    rfl
  · rw [Collect_eq, Collect_eq]
    simp
  · exact gaugeCount_Collect UpstreamResult.fail a q "bamboo_up" (by simp)

/-- C5 counterexample: a well-formed JSON object response in which the
`queuedBuilds.size` field is absent does NOT make `getQueue` fail with a
`DecodeError` — `json.Unmarshal` leaves absent fields at their zero
value, so `getQueue` succeeds with size 0, refuting the claim at this
input. -/
theorem c5_absent_size_decodes_ok :
    GetQueue (Except.ok (Json.obj [("queuedBuilds", Json.obj [])]))
      = Except.ok ⟨⟨0, 0, 0⟩⟩ := by
  rfl

/-- C5 (amended): for every well-formed JSON object response whose
`queuedBuilds` object carries a `size` field with a non-numeric,
non-null value, `getQueue` fails with a `DecodeError` (distinct from the
transport and status errors); an absent (or null) size field instead
decodes successfully to size 0. -/
theorem c5_amended_bad_size_is_decode_error
    (fields inner : List (String × Json)) (v : Json)
    (hqb : ("queuedBuilds", Json.obj inner) ∈ fields)
    (hsz : ("size", v) ∈ inner)
    (hnum : v.isNum = false) (hnull : v.isNull = false) :
    GetQueue (Except.ok (Json.obj fields)) = Except.error ScrapeError.decode := by
  show (if (decodeBambooQueue (Json.obj fields)).2 then Except.error ScrapeError.decode
    else Except.ok (decodeBambooQueue (Json.obj fields)).1) = Except.error ScrapeError.decode
  rw [if_pos (decodeBambooQueue_bad_size fields inner v hqb hsz hnum hnull)]

/-- C5 amended-claim witness at a concrete response:
`{"queuedBuilds": {"size": "two"}}` is a `DecodeError`. -/
theorem c5_amended_witness :
    GetQueue (Except.ok (Json.obj [("queuedBuilds", Json.obj [("size", Json.str "two")])]))
      = Except.error ScrapeError.decode :=
  c5_amended_bad_size_is_decode_error
    [("queuedBuilds", Json.obj [("size", Json.str "two")])]
    [("size", Json.str "two")] (Json.str "two")
    (List.mem_singleton.mpr rfl) (List.mem_singleton.mpr rfl) rfl rfl

/-- C6: the `hostName` label of every emitted agent row is the agent's
host name lowercased with every space replaced by an underscore, hence
contains no ASCII uppercase letter and no space; e.g. "Build Node 1"
becomes "build_node_1". -/
theorem c6_hostname_label (v : UpstreamResult BambooVersion)
    (q : UpstreamResult BambooQueue) (agents : BambooAgents)
    (ag : BambooAgent) (s : String) :
    agentRowsOf (Collect v (UpstreamResult.ok agents) q) = agents.map agentRow
  ∧ (agentRow ag).rowHostName = hostNameLabel ag.HostName
  ∧ ((hostNameLabel s).data.all fun c => !c.isUpper && !(c = ' ')) = true
  ∧ hostNameLabel "Build Node 1" = "build_node_1" := by
  exact ⟨agentRowsOf_Collect v (UpstreamResult.ok agents) q, rfl,
    hostNameLabel_clean s, by decide⟩

/-- C7: the `isRemote` label of an emitted agent row is "yes" exactly
when the raw classification string lowercases to "remote", and "no" for
every other string, including "" and unrecognized values. -/
theorem c7_isremote_label (v : UpstreamResult BambooVersion)
    (q : UpstreamResult BambooQueue) (agents : BambooAgents) (ag : BambooAgent) :
    agentRowsOf (Collect v (UpstreamResult.ok agents) q) = agents.map agentRow
  ∧ (agentRow ag).rowIsRemote
      = (if toLowerGo ag.IsRemote = "remote" then "yes" else "no")
  ∧ ((agentRow ag).rowIsRemote = "yes" ↔ toLowerGo ag.IsRemote = "remote")
  ∧ (agentRow { ag with IsRemote := "Remote" }).rowIsRemote = "yes"
  ∧ (agentRow { ag with IsRemote := "REMOTE" }).rowIsRemote = "yes"
  ∧ (agentRow { ag with IsRemote := "local" }).rowIsRemote = "no"
  ∧ (agentRow { ag with IsRemote := "" }).rowIsRemote = "no" := by
  refine ⟨agentRowsOf_Collect v (UpstreamResult.ok agents) q, rfl, ?_, ?_, ?_, ?_, ?_⟩
  · by_cases h : toLowerGo ag.IsRemote = "remote"
    · simp [agentRow, Metric.rowIsRemote, h]
    · simp [agentRow, Metric.rowIsRemote, h]
  · simp [agentRow, Metric.rowIsRemote]
    decide
  · simp [agentRow, Metric.rowIsRemote]
    decide
  · simp [agentRow, Metric.rowIsRemote]
    decide
  · simp [agentRow, Metric.rowIsRemote]
    decide

/-- C8: every cycle, whatever combination of upstream calls fails, emits
each of the five fixed gauges exactly once plus exactly one agent row
per returned agent (none when `getAgents` failed); the transcript is
never truncated. -/
theorem c8_complete_emission (v : UpstreamResult BambooVersion)
    (a : UpstreamResult BambooAgents) (q : UpstreamResult BambooQueue) :
    gaugeCount (Collect v a q) "bamboo_up" = 1
  ∧ gaugeCount (Collect v a q) "bamboo_running" = 1
  ∧ gaugeCount (Collect v a q) "bamboo_agent_count_total" = 1
  ∧ gaugeCount (Collect v a q) "bamboo_agent_count_busy" = 1
  ∧ gaugeCount (Collect v a q) "bamboo_queue_count" = 1
  ∧ (agentRowsOf (Collect v a q)).length = (a.value).length
  ∧ agentRowsOf (Collect v UpstreamResult.fail q) = [] := by
  refine ⟨gaugeCount_Collect v a q _ (by simp), gaugeCount_Collect v a q _ (by simp),
    gaugeCount_Collect v a q _ (by simp), gaugeCount_Collect v a q _ (by simp),
    gaugeCount_Collect v a q _ (by simp), ?_, ?_⟩
  · rw [agentRowsOf_Collect]
    simp
  · rw [agentRowsOf_Collect]
    rfl

/-- C9: the cycle is deterministic in the three upstream results: the
transcript does not depend on the gauge state left by earlier scrapes
(every gauge is set before being sent), so two consecutive collect()
invocations against unchanged upstream results emit identical metric
sets. -/
theorem c9_deterministic (g g2 : Gauges) (v : UpstreamResult BambooVersion)
    (a : UpstreamResult BambooAgents) (q : UpstreamResult BambooQueue) :
    (CollectFrom g v a q).2 = (CollectFrom g2 v a q).2
  ∧ (CollectFrom (CollectFrom g v a q).1 v a q).2 = (CollectFrom g v a q).2
  ∧ (CollectFrom g v a q).2 = Collect v a q := by
  refine ⟨?_, ?_, ?_⟩
  · rw [CollectFrom_snd_eq, CollectFrom_snd_eq]
  · rw [CollectFrom_snd_eq, CollectFrom_snd_eq]
  · rw [CollectFrom_snd_eq, Collect_eq]

/-- C10: in every emitted metric set `bamboo_agent_count_busy` is at
most `bamboo_agent_count_total`, because busy agents are counted among
the agents returned in the same cycle. -/
theorem c10_busy_le_total (v : UpstreamResult BambooVersion)
    (a : UpstreamResult BambooAgents) (q : UpstreamResult BambooQueue) :
    gaugeValue (Collect v a q) "bamboo_agent_count_busy"
      ≤ gaugeValue (Collect v a q) "bamboo_agent_count_total" := by
  rw [gaugeValue_Collect_busy, gaugeValue_Collect_total]
  exact_mod_cast List.length_filter_le _ _

end BambooExporter
